import Mathlib

/-!
Verification of `strawberry_graphene` (schema.py, extension.py).

This file gives a shallow embedding of the cross-system type converter
(`GrapheneTypeMap.add_type`), the schema constructor (`Schema.__init__`),
`Schema.get_type_by_name`, and the `SyncToAsync` extension's `resolve`
method, and proves the specification's claims about them.

Modelling conventions:
* Python objects flowing through `add_type` are modelled by the inductive
  `GrapheneType`.  Each constructor corresponds to one of the disjoint
  capability classes `add_type` probes for: a System-A (strawberry) marked
  class (`_type_definition` / `_enum_definition` attribute), a subclass of
  `graphene.Decimal`, a function (lazy thunk), `graphene.List` /
  `graphene.NonNull` wrappers, the six named graphene kinds, and objects
  that fit none of these (with or without a `_meta.name`).
* A Python thunk (`inspect.isfunction`) is a closure returning a
  descriptor; it is modelled by `lazyRef key` together with an environment
  `env : String → GrapheneType` giving the descriptor the closure returns.
* Python object identity: the registry stores the very object that is
  returned, so "same identity" is modelled as equality of the stored
  value.
* graphene's `create_objecttype` / `create_inputobjecttype` /
  `create_interface` / `construct_union` build the target type with
  *deferred* field thunks (`fields=partial(self.create_fields_for_type, …)`);
  the thunks run later, when the GraphQL schema document is assembled, and
  call back into `add_type`.  This is modelled by `AddResult.pending`: the
  list of field descriptors whose conversion the build deferred, consumed
  by `elaborate`.
* Recursion through the environment is not structural, so `addType` and
  `elaborate` take a fuel parameter; `.outOfFuel` never occurs in any run
  appearing below.
-/

namespace StrawberryGraphene

/-- A descriptor reaching `GrapheneTypeMap.add_type` (schema.py lines 58-106).
`strawberryType name id` is a System-A class carrying `_type_definition`
(or `_enum_definition`); `decimalType` is a subclass of `graphene.Decimal`;
`lazyRef k` is a function (thunk) whose call returns the descriptor bound
to `k` in the ambient environment; `unknownNamed` has a `_meta.name` but is
none of the six graphene kinds; `unknownBare` has no `_meta.name` at all. -/
inductive GrapheneType where
  | strawberryType (name : String) (id : Nat)
  | decimalType
  | lazyRef (key : String)
  | list (of : GrapheneType)
  | nonNull (of : GrapheneType)
  | object (name : String) (fields : List GrapheneType)
  | inputObject (name : String) (fields : List GrapheneType)
  | interfaceType (name : String) (fields : List GrapheneType)
  | scalarType (name : String)
  | enumType (name : String) (values : List String)
  | unionType (name : String) (members : List GrapheneType)
  | unknownNamed (name : String)
  | unknownBare (id : Nat)

/-- The target (graphql-core) type produced by conversion.  `hostConverted`
and `hostScalar` are types built by the host (strawberry) converter;
`gObject` … `gUnion` are built by graphene's `create_*` methods, carrying
their deferred field/member descriptors. -/
inductive GType where
  | hostConverted (name : String) (id : Nat)
  | hostScalar (name : String)
  | gList (of : GType)
  | gNonNull (of : GType)
  | gObject (name : String) (fields : List GrapheneType)
  | gInput (name : String) (fields : List GrapheneType)
  | gInterface (name : String) (fields : List GrapheneType)
  | gScalar (name : String)
  | gEnum (name : String) (values : List String)
  | gUnion (name : String) (members : List GrapheneType)

/-- Provenance metadata stored in strawberry's `ConcreteType.definition`:
the originating strawberry definition, or the built-in Decimal scalar
definition from `DEFAULT_SCALAR_REGISTRY`. -/
inductive HostDef where
  | strawberryDef (name : String) (id : Nat)
  | decimalScalarDef

/-- strawberry's `ConcreteType` (strawberry.schema.types): a definition
(provenance metadata, possibly `None`) plus the implementation. -/
structure ConcreteType where
  definition : Option HostDef
  implementation : GType

/-- The two type maps alive during one schema build: `registry` is the
`GrapheneTypeMap` dict itself (System-B side, `self[name] = graphql_type`),
`hostTypeMap` is `strawberry_convertor.type_map`.  Both are insertion-at-
front association lists, matching dict assignment/lookup semantics. -/
structure ConvState where
  registry : List (String × GType)
  hostTypeMap : List (String × ConcreteType)

/-- Result of one `add_type` call: the returned target type, the updated
state, and the field descriptors whose conversion was deferred by the
`create_*` builder (empty on cache hits and host delegations). -/
structure AddResult where
  type : GType
  state : ConvState
  pending : List GrapheneType

/-- Errors raised during conversion.  `typeError g` is Python
`TypeError(f"Expected Graphene type, but received: {g}.")` (schema.py
lines 78-81 and 97-100); `attributeError` is the `AttributeError` from
`object_type._type_definition` in `from_object_type` on a descriptor that
is neither a graphene ObjectType nor strawberry-marked. -/
inductive ConvError where
  | typeError (offending : GrapheneType)
  | attributeError (offending : GrapheneType)
  | outOfFuel

/-- Short printable description of a descriptor (stands for Python's
`str(graphene_type)` in the error message). -/
def GrapheneType.describe : GrapheneType → String
  | .strawberryType n _ => "<strawberry " ++ n ++ ">"
  | .decimalType => "<class graphene.Decimal>"
  | .lazyRef k => "<function " ++ k ++ ">"
  | .list _ => "<graphene.List instance>"
  | .nonNull _ => "<graphene.NonNull instance>"
  | .object n _ => "<ObjectType " ++ n ++ ">"
  | .inputObject n _ => "<InputObjectType " ++ n ++ ">"
  | .interfaceType n _ => "<Interface " ++ n ++ ">"
  | .scalarType n => "<Scalar " ++ n ++ ">"
  | .enumType n _ => "<Enum " ++ n ++ ">"
  | .unionType n _ => "<Union " ++ n ++ ">"
  | .unknownNamed n => "<unrecognized " ++ n ++ ">"
  | .unknownBare i => "<object " ++ toString i ++ ">"

/-- The message of a conversion error, as formatted by the code. -/
def ConvError.message : ConvError → String
  | .typeError g => "Expected Graphene type, but received: " ++ g.describe ++ "."
  | .attributeError g => g.describe ++ " has no attribute _type_definition"
  | .outOfFuel => "out of fuel"

/-- The single thunk unwrap `if inspect.isfunction(graphene_type):
graphene_type = graphene_type()` (schema.py lines 70-71): invoking the
closure returns the descriptor the environment binds to its key. -/
def unthunk (env : String → GrapheneType) : GrapheneType → GrapheneType
  | .lazyRef k => env k
  | t => t

/-- `graphene_type._meta.name` (schema.py line 77): `some` for the six
graphene kinds (and `graphene.Decimal`, whose `_meta.name` is `"Decimal"`),
and for unrecognized classes that still carry a `_meta.name`; `none` when
the attribute access raises `AttributeError` (functions, strawberry
classes, wrapper instances, bare objects). -/
def metaName : GrapheneType → Option String
  | .object n _ => some n
  | .inputObject n _ => some n
  | .interfaceType n _ => some n
  | .scalarType n => some n
  | .enumType n _ => some n
  | .unionType n _ => some n
  | .decimalType => some "Decimal"
  | .unknownNamed n => some n
  | _ => none

/-- The `issubclass` dispatch of schema.py lines 85-100: builds the target
type via graphene's `create_objecttype` / `create_inputobjecttype` /
`create_interface` / `create_scalar` / `create_enum` / `construct_union`
(field/member conversion deferred: second component), or `none` when no
branch matches (the `else: raise TypeError` arm).  `graphene.Decimal`
reaches this dispatch only through a thunk and hits the `Scalar` branch,
where graphene's `create_scalar` builds a fresh scalar named `"Decimal"`. -/
def buildNamed : GrapheneType → Option (GType × List GrapheneType)
  | .object n fs => some (.gObject n fs, fs)
  | .inputObject n fs => some (.gInput n fs, fs)
  | .interfaceType n fs => some (.gInterface n fs, fs)
  | .scalarType n => some (.gScalar n, [])
  | .decimalType => some (.gScalar "Decimal", [])
  | .enumType n vs => some (.gEnum n vs, [])
  | .unionType n ms => some (.gUnion n ms, ms)
  | _ => none

/-- `issubclass(graphene_type, graphene.Scalar)` (schema.py line 102). -/
def isScalarKind : GrapheneType → Bool
  | .scalarType _ => true
  | .decimalType => true
  | _ => false

/-- The host converter's `from_type` on a strawberry-marked class, i.e.
strawberry's own `from_object`/`from_enum`: memoized in
`self.type_map` under the type's name, storing the originating definition
as provenance.  (External collaborator: modelled from the host builder
interface of spec section 6; strawberry itself is out of scope.) -/
def hostFromType (name : String) (id : Nat) (s : ConvState) : GType × ConvState :=
  match s.hostTypeMap.lookup name with
  | some ct => (ct.implementation, s)
  | none =>
      (.hostConverted name id,
       ⟨s.registry,
        (name, ⟨some (.strawberryDef name id), .hostConverted name id⟩) :: s.hostTypeMap⟩)

/-- The host converter's `from_scalar(Decimal)`: looks the shared
fixed-point `Decimal` scalar up in `self.type_map` (via the default scalar
registry) and creates it at most once.  (External collaborator: modelled
from the host builder interface of spec section 6.) -/
def fromScalarDecimal (s : ConvState) : GType × ConvState :=
  match s.hostTypeMap.lookup "Decimal" with
  | some ct => (ct.implementation, s)
  | none =>
      (.hostScalar "Decimal",
       ⟨s.registry,
        ("Decimal", ⟨some .decimalScalarDef, .hostScalar "Decimal"⟩) :: s.hostTypeMap⟩)

/-- schema.py lines 76-106: resolve `_meta.name`, consult the registry,
otherwise dispatch on kind, register the built type under its name, and
mirror non-scalar types into the host's `type_map` with `definition=None`. -/
def addNamed (t2 : GrapheneType) (s : ConvState) : Except ConvError AddResult :=
  match metaName t2 with
  | none => .error (.typeError t2)
  | some n =>
    match s.registry.lookup n with
    | some g => .ok ⟨g, s, []⟩
    | none =>
      match buildNamed t2 with
      | none => .error (.typeError t2)
      | some (g, pend) =>
        let s1 : ConvState := ⟨(n, g) :: s.registry, s.hostTypeMap⟩
        let s2 : ConvState :=
          if isScalarKind t2 then s1
          else ⟨s1.registry, (n, ⟨none, g⟩) :: s1.hostTypeMap⟩
        .ok ⟨g, s2, pend⟩

/-- `GrapheneTypeMap.add_type` (schema.py lines 58-106), in source order:
1. a class carrying `_type_definition`/`_enum_definition` is delegated to
   the strawberry converter's `from_type`;
2. a subclass of `graphene.Decimal` is delegated to `from_scalar(Decimal)`;
3. a function (thunk) is invoked once;
4. `graphene.List`/`graphene.NonNull` recursively convert the wrapped type;
5. otherwise the named dispatch `addNamed` runs.
The fuel bounds the non-structural recursion through thunks. -/
def addType (env : String → GrapheneType) :
    Nat → GrapheneType → ConvState → Except ConvError AddResult
  | 0, _, _ => .error .outOfFuel
  | fuel + 1, t, s =>
    match t with
    | .strawberryType n i =>
        let r := hostFromType n i s
        .ok ⟨r.1, r.2, []⟩
    | .decimalType =>
        let r := fromScalarDecimal s
        .ok ⟨r.1, r.2, []⟩
    | t0 =>
      match unthunk env t0 with
      | .list inner =>
          match addType env fuel inner s with
          | .error e => .error e
          | .ok r => .ok ⟨.gList r.type, r.state, r.pending⟩
      | .nonNull inner =>
          match addType env fuel inner s with
          | .error e => .error e
          | .ok r => .ok ⟨.gNonNull r.type, r.state, r.pending⟩
      | t2 => addNamed t2 s

/-- The descriptor the converter actually dispatches on: the original one
for the two early special cases, the thunk's result otherwise. -/
def dispatchee (env : String → GrapheneType) : GrapheneType → GrapheneType
  | .strawberryType n i => .strawberryType n i
  | .decimalType => .decimalType
  | t0 => unthunk env t0

/-- `some n` exactly when the descriptor takes the named-dispatch path of
`add_type` (neither host-delegated, nor decimal special case, nor a
List/NonNull wrapper after unwrapping) and `n` is its `_meta.name`. -/
def namedPathName (env : String → GrapheneType) : GrapheneType → Option String
  | .strawberryType _ _ => none
  | .decimalType => none
  | t0 =>
    match unthunk env t0 with
    | .list _ => none
    | .nonNull _ => none
    | t2 => metaName t2

/-- Forcing of the deferred field thunks, as performed when the
`GraphQLSchema` document is assembled: a worklist of pending descriptors,
each converted through `add_type`, newly deferred fields being appended. -/
def elaborate (env : String → GrapheneType) :
    Nat → List GrapheneType → ConvState → Except ConvError ConvState
  | _, [], s => .ok s
  | 0, _ :: _, _ => .error .outOfFuel
  | fuel + 1, t :: rest, s =>
    match addType env (fuel + 1) t s with
    | .error e => .error e
    | .ok r => elaborate env fuel (r.pending ++ rest) r.state

/-- `GraphQLCoreConverter.from_object_type` (schema.py lines 40-45): a
subclass of `graphene.ObjectType` goes through `add_graphene_type`
(= `GrapheneTypeMap.add_type`); everything else is sent to the host's
`from_object(object_type._type_definition)` — which raises
`AttributeError` when the class carries no `_type_definition`. -/
def fromObjectType (env : String → GrapheneType) (fuel : Nat)
    (t : GrapheneType) (s : ConvState) : Except ConvError AddResult :=
  match t with
  | .object n fs => addType env fuel (.object n fs) s
  | .strawberryType n i =>
      let r := hostFromType n i s
      .ok ⟨r.1, r.2, []⟩
  | t' => .error (.attributeError t')

/-- Errors aborting `Schema.__init__`: a conversion error propagating out
of the converter, or the `ValueError("Invalid Schema. Errors:\n\n…")`
raised after `validate_schema` returns a non-empty error list (the spec's
SchemaValidationError). -/
inductive BuildError where
  | conversionError (e : ConvError)
  | schemaValidationError (report : String)

/-- The schema object `Schema.__init__` produces on success. -/
structure SchemaModel where
  queryType : GType
  mutationType : Option GType
  subscriptionType : Option GType
  state : ConvState

/-- The root conversions of `Schema.__init__` before validation. -/
structure BuiltParts where
  queryType : GType
  mutationType : Option GType
  subscriptionType : Option GType
  state : ConvState

/-- Convert an optional root type (mutation/subscription). -/
def convertOptRoot (env : String → GrapheneType) (fuel : Nat)
    (t : Option GrapheneType) (s : ConvState) :
    Except ConvError (Option GType × ConvState × List GrapheneType) :=
  match t with
  | none => .ok (none, s, [])
  | some t' =>
    match fromObjectType env fuel t' s with
    | .error e => .error e
    | .ok r => .ok (some r.type, r.state, r.pending)

/-- Convert the `types=` sequence (schema.py lines 159-162), threading the
state and collecting deferred field work. -/
def convertExtraTypes (env : String → GrapheneType) (fuel : Nat) :
    List GrapheneType → ConvState → Except ConvError (ConvState × List GrapheneType)
  | [], s => .ok (s, [])
  | t :: rest, s =>
    match fromObjectType env fuel t s with
    | .error e => .error e
    | .ok r =>
      match convertExtraTypes env fuel rest r.state with
      | .error e => .error e
      | .ok (s', ps) => .ok (s', r.pending ++ ps)

/-- The conversion phase of `Schema.__init__` (schema.py lines 142-170):
convert query, mutation, subscription and the extra `types`, then assemble
the `GraphQLSchema` document — which forces every deferred field thunk
(`elaborate`).  Directive conversion has no effect on the type maps and is
omitted. -/
def buildTypes (env : String → GrapheneType) (fuel : Nat)
    (query : GrapheneType) (mutation subscription : Option GrapheneType)
    (types : List GrapheneType) : Except ConvError BuiltParts :=
  match fromObjectType env fuel query ⟨[], []⟩ with
  | .error e => .error e
  | .ok rq =>
    match convertOptRoot env fuel mutation rq.state with
    | .error e => .error e
    | .ok (mt, s1, p1) =>
      match convertOptRoot env fuel subscription s1 with
      | .error e => .error e
      | .ok (st, s2, p2) =>
        match convertExtraTypes env fuel types s2 with
        | .error e => .error e
        | .ok (s3, p3) =>
          match elaborate env fuel (rq.pending ++ p1 ++ p2 ++ p3) s3 with
          | .error e => .error e
          | .ok s4 => .ok ⟨rq.type, mt, st, s4⟩

/-- `"\n\n".join(f"❌ {error.message}" for error in errors)`
(schema.py lines 179-181). -/
def joinMessages : List String → String
  | [] => ""
  | [m] => "❌ " ++ m
  | m :: rest => "❌ " ++ m ++ "\n\n" ++ joinMessages rest

/-- `f"Invalid Schema. Errors:\n\n{formatted_errors}"` (schema.py line 182). -/
def formatReport (errors : List String) : String :=
  "Invalid Schema. Errors:\n\n" ++ joinMessages errors

/-- `Schema.__init__` (schema.py lines 110-184): run the conversion phase,
then `validate_schema` exactly once; on a non-empty error list raise the
aggregated `ValueError`, otherwise return the schema.  `validate` stands
for graphql-core's structural validator (external collaborator), mapping
the assembled state to the list of error messages.  The second component
counts how many times the validator ran. -/
def schemaInit (env : String → GrapheneType) (fuel : Nat)
    (query : GrapheneType) (mutation subscription : Option GrapheneType)
    (types : List GrapheneType) (validate : ConvState → List String) :
    Except BuildError SchemaModel × Nat :=
  match buildTypes env fuel query mutation subscription types with
  | .error e => (.error (.conversionError e), 0)
  | .ok bp =>
    let errors := validate bp.state
    match errors with
    | [] => (.ok ⟨bp.queryType, bp.mutationType, bp.subscriptionType, bp.state⟩, 1)
    | _ :: _ => (.error (.schemaValidationError (formatReport errors)), 1)

/-- `Schema.get_type_by_name` (schema.py lines 186-198): when the name is
in the converter's `type_map`, return `getattr(entry, "definition", None)`;
otherwise `None`. -/
def getTypeByName (s : ConvState) (name : String) : Option HostDef :=
  match s.hostTypeMap.lookup name with
  | some ct => ct.definition
  | none => none

/-- Number of entries under a given name in an association list (used to
count how many `Decimal` scalar types a schema ends up with). -/
def countKey (n : String) (l : List (String × ConcreteType)) : Nat :=
  (l.filter fun p => p.1 == n).length

/-! ### Resolver Adapter (extension.py) -/

/-- The data `SyncToAsync.resolve` inspects about one field resolution:
whether `is_introspection_field(info)` holds and whether the wrapped
resolver `_next` is a coroutine function. -/
structure FieldResolution where
  introspectionField : Bool
  nextIsCoroutineFunction : Bool

/-- How the wrapped resolver ends up being invoked: directly/unchanged, or
through `sync_to_async(_next, thread_sensitive=…)`. -/
inductive Invocation where
  | direct
  | viaSyncToAsync (threadSensitive : Bool)

/-- `SyncToAsync.resolve` (extension.py lines 13-25), in source order:
introspection fields call `_next` unchanged; a non-coroutine-function
`_next` is wrapped by `sync_to_async` with the extension's
`thread_sensitive` flag; otherwise `_next` is called directly. -/
def syncToAsyncResolve (threadSensitive : Bool) (f : FieldResolution) : Invocation :=
  if f.introspectionField then .direct
  else if !f.nextIsCoroutineFunction then .viaSyncToAsync threadSensitive
  else .direct

/-! ### Helper lemmas -/

/-- Unfolding of `addNamed` once the `_meta.name` is known. -/
theorem addNamed_eq_of_name (t2 : GrapheneType) (n : String)
    (hm : metaName t2 = some n) (s : ConvState) :
    addNamed t2 s =
      match s.registry.lookup n with
      | some g => .ok ⟨g, s, []⟩
      | none =>
        match buildNamed t2 with
        | none => .error (.typeError t2)
        | some (g, pend) =>
          .ok ⟨g,
            if isScalarKind t2 then ⟨(n, g) :: s.registry, s.hostTypeMap⟩
            else ⟨(n, g) :: s.registry, (n, ⟨none, g⟩) :: s.hostTypeMap⟩,
            pend⟩ := by
  unfold addNamed
  rw [hm]

/-- Memoization at the named dispatch: after a successful conversion the
name maps to the returned instance, and converting again returns that very
instance without touching the state. -/
theorem addNamed_mem (t2 : GrapheneType) (s : ConvState) (r : AddResult) (n : String)
    (hm : metaName t2 = some n) (h : addNamed t2 s = .ok r) :
    r.state.registry.lookup n = some r.type ∧
    addNamed t2 r.state = .ok ⟨r.type, r.state, []⟩ := by
  rw [addNamed_eq_of_name t2 n hm] at h
  split at h
  case _ g hl =>
    injection h with h'
    subst h'
    refine ⟨hl, ?_⟩
    rw [addNamed_eq_of_name t2 n hm, hl]
  case _ hl =>
    split at h
    case _ hb => cases h
    case _ g pend hb =>
      injection h with h'
      subst h'
      have hreg : (if isScalarKind t2 then
            (⟨(n, g) :: s.registry, s.hostTypeMap⟩ : ConvState)
          else ⟨(n, g) :: s.registry, (n, ⟨none, g⟩) :: s.hostTypeMap⟩).registry
            = (n, g) :: s.registry := by split <;> rfl
      have hlook : (if isScalarKind t2 then
            (⟨(n, g) :: s.registry, s.hostTypeMap⟩ : ConvState)
          else ⟨(n, g) :: s.registry,
              (n, ⟨none, g⟩) :: s.hostTypeMap⟩).registry.lookup n = some g := by
        rw [hreg]
        simp [List.lookup]
      refine ⟨hlook, ?_⟩
      rw [addNamed_eq_of_name t2 n hm, hlook]

/-- Install shapes of a first-time build at the named dispatch: the name
is pushed onto the B-side registry, and onto the host `type_map` with a
`none` definition exactly when the kind is not scalar. -/
theorem addNamed_install (t2 : GrapheneType) (s : ConvState) (r : AddResult) (n : String)
    (hm : metaName t2 = some n) (hmiss : s.registry.lookup n = none)
    (h : addNamed t2 s = .ok r) :
    r.state.registry = (n, r.type) :: s.registry ∧
    (isScalarKind t2 = false →
        r.state.hostTypeMap = (n, ⟨none, r.type⟩) :: s.hostTypeMap) ∧
    (isScalarKind t2 = true → r.state.hostTypeMap = s.hostTypeMap) := by
  rw [addNamed_eq_of_name t2 n hm] at h
  split at h
  case _ g hl => rw [hmiss] at hl; cases hl
  case _ hl =>
    split at h
    case _ hb => cases h
    case _ g pend hb =>
      injection h with h'
      subst h'
      cases hs : isScalarKind t2 <;> simp [hs]

/-- On the named-dispatch path, `add_type` behaves as `addNamed` applied to
the descriptor it dispatches on, and that descriptor's `_meta.name` is the
path's name. -/
theorem addType_namedPath (env : String → GrapheneType) (fuel : Nat)
    (t : GrapheneType) (s : ConvState) (n : String)
    (hn : namedPathName env t = some n) :
    addType env (fuel + 1) t s = addNamed (dispatchee env t) s ∧
    metaName (dispatchee env t) = some n := by
  cases t with
  | strawberryType n' i' => simp [namedPathName] at hn
  | decimalType => simp [namedPathName] at hn
  | lazyRef k =>
      cases henv : env k <;>
        simp_all [namedPathName, unthunk, dispatchee, metaName, addType]
  | list inner => simp [namedPathName, unthunk] at hn
  | nonNull inner => simp [namedPathName, unthunk] at hn
  | object n' fs => simp_all [namedPathName, unthunk, dispatchee, metaName, addType]
  | inputObject n' fs => simp_all [namedPathName, unthunk, dispatchee, metaName, addType]
  | interfaceType n' fs => simp_all [namedPathName, unthunk, dispatchee, metaName, addType]
  | scalarType n' => simp_all [namedPathName, unthunk, dispatchee, metaName, addType]
  | enumType n' vs => simp_all [namedPathName, unthunk, dispatchee, metaName, addType]
  | unionType n' ms => simp_all [namedPathName, unthunk, dispatchee, metaName, addType]
  | unknownNamed n' => simp_all [namedPathName, unthunk, dispatchee, metaName, addType]
  | unknownBare i' => simp [namedPathName, unthunk, metaName] at hn

/-- Every validation message occurs verbatim inside the joined report. -/
theorem mem_infix_joinMessages (l : List String) (m : String) (hm : m ∈ l) :
    m.data <:+: (joinMessages l).data := by
  induction l with
  | nil => cases hm
  | cons x rest ih =>
      rcases List.mem_cons.mp hm with rfl | hmem
      · cases rest with
        | nil => exact ⟨"❌ ".data, [], by simp [joinMessages]⟩
        | cons y rest' =>
            exact ⟨"❌ ".data, ("\n\n" ++ joinMessages (y :: rest')).data,
              by simp [joinMessages]⟩
      · cases rest with
        | nil => cases hmem
        | cons y rest' =>
            exact List.IsInfix.trans (ih hmem)
              ⟨("❌ " ++ x ++ "\n\n").data, [], by simp [joinMessages]⟩

/-! ### Claims -/

/-- C1: for every System-B named type (Object, InputObject, Interface,
Scalar, Enum, Union) converted more than once during a single build, the
converter returns the identical (same-identity) target-type instance on
every conversion after the first: after a successful conversion the Type
Registry maps the name to the returned instance, and any later conversion
of the descriptor returns exactly that cached instance while leaving the
state untouched (so the name is inserted at most once). -/
theorem convert_memoized_identity (env : String → GrapheneType)
    (fuel fuel' : Nat) (t : GrapheneType) (s : ConvState) (r : AddResult) (n : String)
    (hn : namedPathName env t = some n)
    (h : addType env (fuel + 1) t s = .ok r) :
    r.state.registry.lookup n = some r.type ∧
    addType env (fuel' + 1) t r.state = .ok ⟨r.type, r.state, []⟩ := by
  obtain ⟨heq, hm⟩ := addType_namedPath env fuel t s n hn
  rw [heq] at h
  obtain ⟨h1, h2⟩ := addNamed_mem _ s r n hm h
  obtain ⟨heq', _⟩ := addType_namedPath env fuel' t r.state n hn
  exact ⟨h1, by rw [heq']; exact h2⟩

/-- Witness for C1 at the enum `PetType`. -/
theorem convert_memoized_identity_witness :
    (⟨[("PetType", .gEnum "PetType" ["DOG", "CAT"])],
       [("PetType", ⟨none, .gEnum "PetType" ["DOG", "CAT"]⟩)]⟩ :
       ConvState).registry.lookup "PetType" = some (.gEnum "PetType" ["DOG", "CAT"]) ∧
    addType (fun _ => .unknownBare 0) (0 + 1) (.enumType "PetType" ["DOG", "CAT"])
        ⟨[("PetType", .gEnum "PetType" ["DOG", "CAT"])],
         [("PetType", ⟨none, .gEnum "PetType" ["DOG", "CAT"]⟩)]⟩ =
      .ok ⟨.gEnum "PetType" ["DOG", "CAT"],
        ⟨[("PetType", .gEnum "PetType" ["DOG", "CAT"])],
         [("PetType", ⟨none, .gEnum "PetType" ["DOG", "CAT"]⟩)]⟩, []⟩ :=
  convert_memoized_identity (fun _ => .unknownBare 0) 0 0
    (.enumType "PetType" ["DOG", "CAT"]) ⟨[], []⟩
    ⟨.gEnum "PetType" ["DOG", "CAT"],
      ⟨[("PetType", .gEnum "PetType" ["DOG", "CAT"])],
       [("PetType", ⟨none, .gEnum "PetType" ["DOG", "CAT"]⟩)]⟩, []⟩
    "PetType" rfl rfl

/-- C3: a System-B decimal descriptor is delegated to the host's
`from_scalar(Decimal)` and never creates a B-side scalar (the B registry is
untouched); in a schema with both a System-A Decimal field and a System-B
Decimal field — in either order — both conversions return the identical
shared scalar and exactly one `Decimal` entry exists in the host type map. -/
theorem decimal_maps_to_shared_scalar (env : String → GrapheneType)
    (fuel : Nat) (s : ConvState) :
    addType env (fuel + 1) .decimalType s =
      .ok ⟨(fromScalarDecimal s).1, (fromScalarDecimal s).2, []⟩ ∧
    ((fromScalarDecimal s).2).registry = s.registry ∧
    (addType env (fuel + 1) .decimalType (fromScalarDecimal ⟨[], []⟩).2 =
       .ok ⟨(fromScalarDecimal ⟨[], []⟩).1, (fromScalarDecimal ⟨[], []⟩).2, []⟩ ∧
     countKey "Decimal" ((fromScalarDecimal ⟨[], []⟩).2.hostTypeMap) = 1) ∧
    (addType env (fuel + 1) .decimalType ⟨[], []⟩ =
       .ok ⟨.hostScalar "Decimal",
         ⟨[], [("Decimal", ⟨some .decimalScalarDef, .hostScalar "Decimal"⟩)]⟩, []⟩ ∧
     fromScalarDecimal
         ⟨[], [("Decimal", ⟨some .decimalScalarDef, .hostScalar "Decimal"⟩)]⟩ =
       (.hostScalar "Decimal",
        ⟨[], [("Decimal", ⟨some .decimalScalarDef, .hostScalar "Decimal"⟩)]⟩) ∧
     countKey "Decimal"
         [("Decimal", ⟨some .decimalScalarDef, .hostScalar "Decimal"⟩)] = 1) := by
  refine ⟨rfl, ?_, ⟨rfl, rfl⟩, ⟨rfl, rfl, rfl⟩⟩
  unfold fromScalarDecimal
  split <;> rfl

/-- C6: a descriptor carrying a System-A marker (`_type_definition` /
`_enum_definition`) is delegated to the host converter's native conversion
— both from `add_type` and from `from_object_type` — returning the host's
result unwrapped, and the System-B registry is never touched. -/
theorem strawberry_marker_delegates (env : String → GrapheneType)
    (fuel : Nat) (n : String) (i : Nat) (s : ConvState) :
    addType env (fuel + 1) (.strawberryType n i) s =
      .ok ⟨(hostFromType n i s).1, (hostFromType n i s).2, []⟩ ∧
    ((hostFromType n i s).2).registry = s.registry ∧
    fromObjectType env (fuel + 1) (.strawberryType n i) s =
      .ok ⟨(hostFromType n i s).1, (hostFromType n i s).2, []⟩ := by
  refine ⟨rfl, ?_, rfl⟩
  unfold hostFromType
  split <;> rfl

/-- C7: `SyncToAsync.resolve` dispatches in exactly three cases: an
introspection meta-field invokes the wrapped resolver unchanged; a wrapped
resolver that is not a coroutine function goes through `sync_to_async`
configured by the `thread_sensitive` flag; otherwise the wrapped resolver
is invoked directly. -/
theorem resolver_dispatch_cases (threadSensitive : Bool) (f : FieldResolution) :
    (f.introspectionField = true →
        syncToAsyncResolve threadSensitive f = .direct) ∧
    (f.introspectionField = false → f.nextIsCoroutineFunction = false →
        syncToAsyncResolve threadSensitive f = .viaSyncToAsync threadSensitive) ∧
    (f.introspectionField = false → f.nextIsCoroutineFunction = true →
        syncToAsyncResolve threadSensitive f = .direct) := by
  obtain ⟨i, c⟩ := f
  cases i <;> cases c <;> simp [syncToAsyncResolve]

/-- Witness for C7: a synchronous, non-introspection resolver goes through
`sync_to_async` with the extension's flag. -/
theorem resolver_dispatch_cases_witness :
    syncToAsyncResolve true ⟨false, false⟩ = .viaSyncToAsync true :=
  (resolver_dispatch_cases true ⟨false, false⟩).2.1 rfl rfl

/-- C2: a pair of mutually referencing object types (each holding a lazy
field reference to the other) converts and fully elaborates with any
sufficient fuel — the registry is consulted before building a named type
and field conversion is deferred, so the cycle is broken at the registry
hit and elaboration terminates, registering both types exactly once.  The
hypotheses are symmetric in `a`/`b`, so the theorem applies to conversion
starting from either type. -/
theorem mutual_reference_terminates (env : String → GrapheneType)
    (a b : String) (fuel : Nat) (hab : a ≠ b)
    (ha : env a = .object a [.lazyRef b])
    (hb : env b = .object b [.lazyRef a]) :
    elaborate env (fuel + 1 + 1 + 1) [.object a [.lazyRef b]] ⟨[], []⟩ =
      .ok ⟨[(b, .gObject b [.lazyRef a]), (a, .gObject a [.lazyRef b])],
           [(b, ⟨none, .gObject b [.lazyRef a]⟩),
            (a, ⟨none, .gObject a [.lazyRef b]⟩)]⟩ := by
  have hab' : (a == b) = false := beq_eq_false_iff_ne.mpr hab
  have hba : (b == a) = false := beq_eq_false_iff_ne.mpr (Ne.symm hab)
  simp [elaborate, addType, addNamed, unthunk, metaName, buildNamed, isScalarKind,
    List.lookup, ha, hb, hab', hba]

/-- Witness for C2 at `A`/`B`. -/
theorem mutual_reference_terminates_witness :
    elaborate
        (fun k => if k = "B" then .object "B" [.lazyRef "A"]
                  else .object "A" [.lazyRef "B"])
        (0 + 1 + 1 + 1) [.object "A" [.lazyRef "B"]] ⟨[], []⟩ =
      .ok ⟨[("B", .gObject "B" [.lazyRef "A"]), ("A", .gObject "A" [.lazyRef "B"])],
           [("B", ⟨none, .gObject "B" [.lazyRef "A"]⟩),
            ("A", ⟨none, .gObject "A" [.lazyRef "B"]⟩)]⟩ :=
  mutual_reference_terminates _ "A" "B" 0 (by decide) (by simp) (by simp)

/-- C9 counterexample: the thunk is invoked only *after* the System-A
marker check and the decimal special case, so a lazy reference yielding
`graphene.Decimal` is *not* converted like the concrete descriptor it
returns: the lazy reference reaches the named dispatch and graphene's
`create_scalar` builds a fresh B-side `Decimal` scalar (registered in the
B registry), while direct conversion returns the host's shared `Decimal`
scalar — two different instances. -/
theorem lazy_decimal_diverges :
    addType (fun _ => .decimalType) 1 (.lazyRef "d") ⟨[], []⟩ =
      .ok ⟨.gScalar "Decimal", ⟨[("Decimal", .gScalar "Decimal")], []⟩, []⟩ ∧
    addType (fun _ => .decimalType) 1 .decimalType ⟨[], []⟩ =
      .ok ⟨.hostScalar "Decimal",
        ⟨[], [("Decimal", ⟨some .decimalScalarDef, .hostScalar "Decimal"⟩)]⟩, []⟩ ∧
    GType.gScalar "Decimal" ≠ GType.hostScalar "Decimal" :=
  ⟨rfl, rfl, fun h => GType.noConfusion h⟩

/-- C9 (amended): the converter invokes a lazy reference to obtain the
concrete descriptor before the List/NonNull and named-kind dispatch (but
after the System-A marker check and the decimal special case), so whenever
the concrete descriptor is neither System-A marked, nor a decimal
descriptor, nor itself a thunk, converting the lazy reference yields
exactly the same result as converting the concrete descriptor. -/
theorem lazy_unwrap_before_wrapper_dispatch (env : String → GrapheneType)
    (fuel : Nat) (k : String) (s : ConvState)
    (h1 : ∀ n i, env k ≠ .strawberryType n i)
    (h2 : env k ≠ .decimalType)
    (h3 : ∀ k2, env k ≠ .lazyRef k2) :
    addType env (fuel + 1) (.lazyRef k) s = addType env (fuel + 1) (env k) s := by
  cases henv : env k
  case strawberryType n i => exact absurd henv (h1 n i)
  case decimalType => exact absurd henv h2
  case lazyRef k2 => exact absurd henv (h3 k2)
  all_goals simp [addType, unthunk, henv]

/-- Witness for the amended C9: a lazy reference to a plain B-side scalar
converts exactly like the scalar itself. -/
theorem lazy_unwrap_before_wrapper_dispatch_witness :
    addType (fun _ => .scalarType "S") (0 + 1) (.lazyRef "k") ⟨[], []⟩ =
      addType (fun _ => .scalarType "S") (0 + 1)
        ((fun _ => (.scalarType "S" : GrapheneType)) "k") ⟨[], []⟩ :=
  lazy_unwrap_before_wrapper_dispatch (fun _ => .scalarType "S") 0 "k" ⟨[], []⟩
    (fun _ _ h => GrapheneType.noConfusion h)
    (fun h => GrapheneType.noConfusion h)
    (fun _ h => GrapheneType.noConfusion h)

/-- C10: a first-time build on the named-dispatch path registers the name
in the B-side registry; a non-scalar kind is additionally installed in the
host's `type_map` under its name with a `None` definition (so
`get_type_by_name` finds no provenance for it), while a scalar kind leaves
the host's `type_map` untouched. -/
theorem builds_install_hostTypeMap (env : String → GrapheneType)
    (fuel : Nat) (t : GrapheneType) (s : ConvState) (r : AddResult) (n : String)
    (hn : namedPathName env t = some n)
    (hmiss : s.registry.lookup n = none)
    (h : addType env (fuel + 1) t s = .ok r) :
    r.state.registry = (n, r.type) :: s.registry ∧
    (isScalarKind (dispatchee env t) = false →
        r.state.hostTypeMap = (n, ⟨none, r.type⟩) :: s.hostTypeMap ∧
        getTypeByName r.state n = none) ∧
    (isScalarKind (dispatchee env t) = true →
        r.state.hostTypeMap = s.hostTypeMap) := by
  obtain ⟨heq, hm⟩ := addType_namedPath env fuel t s n hn
  rw [heq] at h
  obtain ⟨h1, h2, h3⟩ := addNamed_install _ s r n hm hmiss h
  refine ⟨h1, fun hsc => ⟨h2 hsc, ?_⟩, h3⟩
  unfold getTypeByName
  rw [h2 hsc]
  simp [List.lookup]

/-- Witness for C10 at a non-scalar (enum) build. -/
theorem builds_install_hostTypeMap_witness :
    ((⟨[("E", .gEnum "E" ["V"])], [("E", ⟨none, .gEnum "E" ["V"]⟩)]⟩ :
        ConvState).registry = [("E", .gEnum "E" ["V"])] ∧
     (isScalarKind (dispatchee (fun _ => .unknownBare 0) (.enumType "E" ["V"])) = false →
        (⟨[("E", .gEnum "E" ["V"])], [("E", ⟨none, .gEnum "E" ["V"]⟩)]⟩ :
            ConvState).hostTypeMap = [("E", ⟨none, .gEnum "E" ["V"]⟩)] ∧
        getTypeByName
          ⟨[("E", .gEnum "E" ["V"])], [("E", ⟨none, .gEnum "E" ["V"]⟩)]⟩ "E" = none) ∧
     (isScalarKind (dispatchee (fun _ => .unknownBare 0) (.enumType "E" ["V"])) = true →
        (⟨[("E", .gEnum "E" ["V"])], [("E", ⟨none, .gEnum "E" ["V"]⟩)]⟩ :
            ConvState).hostTypeMap = [])) :=
  builds_install_hostTypeMap (fun _ => .unknownBare 0) 0 (.enumType "E" ["V"])
    ⟨[], []⟩
    ⟨.gEnum "E" ["V"], ⟨[("E", .gEnum "E" ["V"])], [("E", ⟨none, .gEnum "E" ["V"]⟩)]⟩, []⟩
    "E" rfl rfl rfl

/-- C4 counterexample: the registry lookup (schema.py line 82) runs
*before* the kind dispatch, so an unrecognized descriptor whose
`_meta.name` is already registered does **not** fail — the cached type
under that name is returned, and a whole schema containing such a
descriptor builds successfully. -/
theorem unrecognized_cached_name_succeeds :
    addType (fun _ => .unknownBare 0) 1 (.unknownNamed "X")
        ⟨[("X", .gObject "X" [])], []⟩ =
      .ok ⟨.gObject "X" [], ⟨[("X", .gObject "X" [])], []⟩, []⟩ ∧
    (schemaInit (fun _ => .unknownBare 0) 3
        (.object "Q" [.object "X" [], .unknownNamed "X"]) none none []
        (fun _ => [])).1.isOk = true :=
  ⟨rfl, rfl⟩

/-- C4 (amended): a descriptor that is neither a recognized System-B kind
nor host-convertible fails with the `TypeError` identifying the offending
value — provided its `_meta.name` (if any) is not already registered, in
which case the cached type is returned instead (see the counterexample).
The failure propagates out of schema construction: `Schema.__init__`
aborts before validation ever runs (count 0) and no schema value exists,
so no query can be executed. -/
theorem unrecognized_fails_typeError (env : String → GrapheneType)
    (fuel : Nat) (s : ConvState) (k n : String) (i : Nat)
    (hmiss : s.registry.lookup n = none) :
    addType env (fuel + 1) (.unknownNamed n) s =
      .error (.typeError (.unknownNamed n)) ∧
    addType env (fuel + 1) (.unknownBare i) s =
      .error (.typeError (.unknownBare i)) ∧
    (env k = .unknownNamed n →
        addType env (fuel + 1) (.lazyRef k) s =
          .error (.typeError (.unknownNamed n))) ∧
    (ConvError.typeError (.unknownNamed n)).message =
      "Expected Graphene type, but received: " ++
        (GrapheneType.unknownNamed n).describe ++ "." ∧
    (n ≠ "Query" → ∀ validate,
        schemaInit env (fuel + 1) (.object "Query" [.unknownNamed n]) none none []
            validate =
          (.error (.conversionError (.typeError (.unknownNamed n))), 0)) := by
  have hbase : addNamed (.unknownNamed n) s = .error (.typeError (.unknownNamed n)) := by
    rw [addNamed_eq_of_name (.unknownNamed n) n rfl, hmiss]
    rfl
  refine ⟨?_, rfl, fun henv => ?_, rfl, fun hnq validate => ?_⟩
  · show addNamed (.unknownNamed n) s = _
    exact hbase
  · have hstep : addType env (fuel + 1) (.lazyRef k) s = addNamed (.unknownNamed n) s := by
      simp [addType, unthunk, henv]
    rw [hstep]
    exact hbase
  · have hnq' : (n == "Query") = false := beq_eq_false_iff_ne.mpr hnq
    simp [schemaInit, buildTypes, fromObjectType, convertOptRoot, convertExtraTypes,
      elaborate, addType, addNamed, unthunk, metaName, buildNamed, isScalarKind,
      List.lookup, hnq']

/-- Witness for the amended C4. -/
theorem unrecognized_fails_typeError_witness :
    addType (fun _ => .unknownNamed "Z") (0 + 1) (.unknownNamed "Z") ⟨[], []⟩ =
      .error (.typeError (.unknownNamed "Z")) ∧
    addType (fun _ => .unknownNamed "Z") (0 + 1) (.unknownBare 7) ⟨[], []⟩ =
      .error (.typeError (.unknownBare 7)) ∧
    ((fun _ => (.unknownNamed "Z" : GrapheneType)) "k" = .unknownNamed "Z" →
        addType (fun _ => .unknownNamed "Z") (0 + 1) (.lazyRef "k") ⟨[], []⟩ =
          .error (.typeError (.unknownNamed "Z"))) ∧
    (ConvError.typeError (.unknownNamed "Z")).message =
      "Expected Graphene type, but received: " ++
        (GrapheneType.unknownNamed "Z").describe ++ "." ∧
    ("Z" ≠ "Query" → ∀ validate,
        schemaInit (fun _ => .unknownNamed "Z") (0 + 1)
            (.object "Query" [.unknownNamed "Z"]) none none [] validate =
          (.error (.conversionError (.typeError (.unknownNamed "Z"))), 0)) :=
  unrecognized_fails_typeError (fun _ => .unknownNamed "Z") 0 ⟨[], []⟩ "k" "Z" 7 rfl

/-- C5: once the conversion phase succeeds, `Schema.__init__` runs
structural validation exactly once; with an empty error list it returns
the schema, and with a non-empty error list it raises the aggregated
`SchemaValidationError` (the `ValueError` with every message joined into
one multi-line report) and returns no schema object. -/
theorem validation_once_aggregated (env : String → GrapheneType) (fuel : Nat)
    (query : GrapheneType) (mutation subscription : Option GrapheneType)
    (types : List GrapheneType) (validate : ConvState → List String)
    (bp : BuiltParts)
    (h : buildTypes env fuel query mutation subscription types = .ok bp) :
    (schemaInit env fuel query mutation subscription types validate).2 = 1 ∧
    (validate bp.state = [] →
        (schemaInit env fuel query mutation subscription types validate).1 =
          .ok ⟨bp.queryType, bp.mutationType, bp.subscriptionType, bp.state⟩) ∧
    (validate bp.state ≠ [] →
        (schemaInit env fuel query mutation subscription types validate).1 =
          .error (.schemaValidationError (formatReport (validate bp.state))) ∧
        ∀ m ∈ validate bp.state,
          m.data <:+: (formatReport (validate bp.state)).data) := by
  have hrec : schemaInit env fuel query mutation subscription types validate =
      (match validate bp.state with
       | [] => (.ok ⟨bp.queryType, bp.mutationType, bp.subscriptionType, bp.state⟩, 1)
       | _ :: _ =>
          (.error (.schemaValidationError (formatReport (validate bp.state))), 1)) := by
    unfold schemaInit
    rw [h]
  rw [hrec]
  cases hv : validate bp.state with
  | nil =>
      exact ⟨rfl, fun _ => rfl, fun hne => absurd rfl hne⟩
  | cons x xs =>
      refine ⟨rfl, fun he => absurd he (List.cons_ne_nil x xs), fun _ => ⟨rfl, ?_⟩⟩
      intro m hm
      exact List.IsInfix.trans (mem_infix_joinMessages (x :: xs) m hm)
        ⟨"Invalid Schema. Errors:\n\n".data, [], by simp [formatReport]⟩

/-- Witness for C5: a one-field build whose validator reports one error. -/
theorem validation_once_aggregated_witness :
    (schemaInit (fun _ => .unknownBare 0) 2 (.object "Q" [.scalarType "S"]) none none []
        (fun _ => ["boom"])).2 = 1 ∧
    ((fun _ => (["boom"] : List String))
        (⟨[("S", .gScalar "S"), ("Q", .gObject "Q" [.scalarType "S"])],
          [("Q", ⟨none, .gObject "Q" [.scalarType "S"]⟩)]⟩ : ConvState) = [] →
        (schemaInit (fun _ => .unknownBare 0) 2 (.object "Q" [.scalarType "S"]) none none []
            (fun _ => ["boom"])).1 =
          .ok ⟨.gObject "Q" [.scalarType "S"], none, none,
            ⟨[("S", .gScalar "S"), ("Q", .gObject "Q" [.scalarType "S"])],
             [("Q", ⟨none, .gObject "Q" [.scalarType "S"]⟩)]⟩⟩) ∧
    ((fun _ => (["boom"] : List String))
        (⟨[("S", .gScalar "S"), ("Q", .gObject "Q" [.scalarType "S"])],
          [("Q", ⟨none, .gObject "Q" [.scalarType "S"]⟩)]⟩ : ConvState) ≠ [] →
        (schemaInit (fun _ => .unknownBare 0) 2 (.object "Q" [.scalarType "S"]) none none []
            (fun _ => ["boom"])).1 =
          .error (.schemaValidationError (formatReport
            ((fun _ => (["boom"] : List String))
              (⟨[("S", .gScalar "S"), ("Q", .gObject "Q" [.scalarType "S"])],
                [("Q", ⟨none, .gObject "Q" [.scalarType "S"]⟩)]⟩ : ConvState)))) ∧
        ∀ m ∈ (fun _ => (["boom"] : List String))
            (⟨[("S", .gScalar "S"), ("Q", .gObject "Q" [.scalarType "S"])],
              [("Q", ⟨none, .gObject "Q" [.scalarType "S"]⟩)]⟩ : ConvState),
          m.data <:+: (formatReport
            ((fun _ => (["boom"] : List String))
              (⟨[("S", .gScalar "S"), ("Q", .gObject "Q" [.scalarType "S"])],
                [("Q", ⟨none, .gObject "Q" [.scalarType "S"]⟩)]⟩ : ConvState))).data) :=
  validation_once_aggregated (fun _ => .unknownBare 0) 2
    (.object "Q" [.scalarType "S"]) none none [] (fun _ => ["boom"])
    ⟨.gObject "Q" [.scalarType "S"], none, none,
      ⟨[("S", .gScalar "S"), ("Q", .gObject "Q" [.scalarType "S"])],
       [("Q", ⟨none, .gObject "Q" [.scalarType "S"]⟩)]⟩⟩ rfl

/-- C8 counterexample: a System-B object type's name is known to the
schema — it sits in the converter's `type_map` (and in the B registry) —
yet `get_type_by_name` returns `None` for it, because B-origin types are
installed with `definition=None`; so "known name implies the originating
type definition metadata is returned" fails. -/
theorem getTypeByName_none_for_graphene_type :
    addType (fun _ => .unknownBare 0) 1 (.object "User" []) ⟨[], []⟩ =
      .ok ⟨.gObject "User" [],
        ⟨[("User", .gObject "User" [])], [("User", ⟨none, .gObject "User" []⟩)]⟩, []⟩ ∧
    ((⟨[("User", .gObject "User" [])], [("User", ⟨none, .gObject "User" []⟩)]⟩ :
        ConvState).hostTypeMap.lookup "User").isSome = true ∧
    getTypeByName
        ⟨[("User", .gObject "User" [])], [("User", ⟨none, .gObject "User" []⟩)]⟩
        "User" = none :=
  ⟨rfl, rfl, rfl⟩

/-- C8 (amended): `get_type_by_name` returns the definition stored in the
converter's `type_map` entry — the originating strawberry definition for
System-A-origin names, but `None` for System-B-origin names, which are
installed without a definition — and `None` when the name is absent from
the `type_map` altogether. -/
theorem getTypeByName_definition_metadata (s : ConvState) (n : String) (i : Nat)
    (ct : ConcreteType) (t2 : GrapheneType) (r : AddResult)
    (hsome : s.hostTypeMap.lookup n = some ct) :
    getTypeByName s n = ct.definition ∧
    (∀ s' : ConvState, s'.hostTypeMap.lookup n = none → getTypeByName s' n = none) ∧
    (∀ s' : ConvState, s'.hostTypeMap.lookup n = none →
        getTypeByName (hostFromType n i s').2 n = some (.strawberryDef n i)) ∧
    (metaName t2 = some n → s.registry.lookup n = none → isScalarKind t2 = false →
        addNamed t2 s = .ok r → getTypeByName r.state n = none) := by
  refine ⟨?_, ?_, ?_, ?_⟩
  · unfold getTypeByName
    rw [hsome]
  · intro s' h'
    unfold getTypeByName
    rw [h']
  · intro s' h'
    unfold getTypeByName hostFromType
    rw [h']
    simp [List.lookup]
  · intro hm hmiss hsc h
    obtain ⟨-, h2, -⟩ := addNamed_install t2 s r n hm hmiss h
    unfold getTypeByName
    rw [h2 hsc]
    simp [List.lookup]

/-- Witness for the amended C8. -/
theorem getTypeByName_definition_metadata_witness :
    getTypeByName ⟨[], [("T", ⟨some (.strawberryDef "T" 1), .hostConverted "T" 1⟩)]⟩ "T" =
      (⟨some (.strawberryDef "T" 1), .hostConverted "T" 1⟩ : ConcreteType).definition ∧
    (∀ s' : ConvState, s'.hostTypeMap.lookup "T" = none → getTypeByName s' "T" = none) ∧
    (∀ s' : ConvState, s'.hostTypeMap.lookup "T" = none →
        getTypeByName (hostFromType "T" 1 s').2 "T" = some (.strawberryDef "T" 1)) ∧
    (metaName (.object "T" []) = some "T" →
        (⟨[], [("T", ⟨some (.strawberryDef "T" 1), .hostConverted "T" 1⟩)]⟩ :
            ConvState).registry.lookup "T" = none →
        isScalarKind (.object "T" []) = false →
        addNamed (.object "T" [])
            ⟨[], [("T", ⟨some (.strawberryDef "T" 1), .hostConverted "T" 1⟩)]⟩ =
          .ok ⟨.gObject "T" [],
            ⟨[("T", .gObject "T" [])],
             [("T", ⟨none, .gObject "T" []⟩),
              ("T", ⟨some (.strawberryDef "T" 1), .hostConverted "T" 1⟩)]⟩, []⟩ →
        getTypeByName
          ⟨[("T", .gObject "T" [])],
           [("T", ⟨none, .gObject "T" []⟩),
            ("T", ⟨some (.strawberryDef "T" 1), .hostConverted "T" 1⟩)]⟩ "T" = none) :=
  getTypeByName_definition_metadata
    ⟨[], [("T", ⟨some (.strawberryDef "T" 1), .hostConverted "T" 1⟩)]⟩ "T" 1
    ⟨some (.strawberryDef "T" 1), .hostConverted "T" 1⟩ (.object "T" [])
    ⟨.gObject "T" [],
      ⟨[("T", .gObject "T" [])],
       [("T", ⟨none, .gObject "T" []⟩),
        ("T", ⟨some (.strawberryDef "T" 1), .hostConverted "T" 1⟩)]⟩, []⟩
    rfl

end StrawberryGraphene
